import Mathlib

/-!
Shallow embedding of the hexbright control library
(src/libraries/hexbright/hexbright.cpp and hexbright.h) and proofs about it.

Modelling conventions:
* C `int` / `long` state variables become `Int` (no overflow occurs on the
  value ranges the library operates on: levels 0..1000, analog reads 0..1023,
  tick counters).
* C floating-point arithmetic on brightness interpolation and on the drive
  curves is modelled over `ℚ`; the C float-to-int conversion (truncation
  toward zero) is `qtrunc`.
* The transcendental accelerometer arithmetic (sqrt, acos, asin on doubles)
  is modelled over `ℝ`; an IEEE domain error or division by zero, which in C
  produces a NaN/Inf that propagates, is modelled by `Option ℝ` with `none`
  standing for the non-finite result.
* Hardware writes (analogWrite/digitalWrite of the main LED driver and the
  indicator LEDs) are modelled as emitted values instead of pin effects.
-/

set_option maxHeartbeats 1000000
set_option maxRecDepth 100000
set_option linter.unusedVariables false

namespace Hexbright

/-! ### Constants from hexbright.h -/

def MAX_LEVEL : Int := 1000
def OVERHEAT_TEMPERATURE : Int := 320
def CURRENT_LEVEL : Int := -1
def RLED : Nat := 0
def GLED : Nat := 1
def LED_OFF : Nat := 0
def LED_WAIT : Nat := 1
def LED_ON : Nat := 2
def CHARGING : Nat := 1
def BATTERY : Nat := 7
def CHARGED : Nat := 3

/-- C float-to-int conversion: truncation toward zero, on a `ℚ` model of the
float value. -/
def qtrunc (q : ℚ) : Int := if 0 ≤ q then ⌊q⌋ else ⌈q⌉

/-! ### Light control state (hexbright.cpp lines 173-295)

The globals `start_light_level`, `end_light_level`, `change_duration`,
`change_done` and `safe_light_level`. -/

structure LightState where
  start_light_level : Int
  end_light_level : Int
  change_duration : Int
  change_done : Int
  safe_light_level : Int
deriving DecidableEq, Repr

/-- hexbright::get_light_level (lines 201-206).  The C code computes
`(end-start)*((float)done/duration) + start` in float and converts the
result to `int`. -/
def get_light_level (s : LightState) : Int :=
  if s.change_done ≥ s.change_duration then s.end_light_level
  else
    qtrunc (((s.end_light_level : ℚ) - (s.start_light_level : ℚ)) *
              ((s.change_done : ℚ) / (s.change_duration : ℚ)) +
            (s.start_light_level : ℚ))

/-- hexbright::get_safe_light_level (lines 208-214). -/
def get_safe_light_level (s : LightState) : Int :=
  if get_light_level s > s.safe_light_level then s.safe_light_level
  else get_light_level s

/-- hexbright::set_light (lines 181-199).  `ms` is the configured
`ms_delay`; `change_duration = time/ms_delay` (C integer division, operands
non-negative in every use relevant here). -/
def set_light (s : LightState) (ms start_level end_level time : Int) :
    LightState :=
  if start_level = CURRENT_LEVEL then
    { s with start_light_level := get_safe_light_level s,
             end_light_level := end_level,
             change_duration := time / ms,
             change_done := 0 }
  else
    { s with start_light_level := start_level,
             end_light_level := end_level,
             change_duration := time / ms,
             change_done := 0 }

/-- hexbright::overheat_protection (lines 259-295): integrate
`OVERHEAT_TEMPERATURE - temperature` into `safe_light_level`, clamp high
then low, and when the result is below `MAX_LEVEL` snap `change_done` to
`min(change_done, change_duration)`. -/
def overheat_protection (s : LightState) (temperature : Int) : LightState :=
  let sl0 := s.safe_light_level + (OVERHEAT_TEMPERATURE - temperature)
  let sl1 := if sl0 > MAX_LEVEL then MAX_LEVEL else sl0
  let sl2 := if sl1 < 0 then 0 else sl1
  if sl2 < MAX_LEVEL then
    { s with safe_light_level := sl2,
             change_done := min s.change_done s.change_duration }
  else
    { s with safe_light_level := sl2 }

/-- hexbright::adjust_light (lines 245-253): if the ramp is not past its
end, write the ceiling-clamped level to the driver (the emitted value) and
increment `change_done`. -/
def adjust_light (s : LightState) : Option Int × LightState :=
  if s.change_done ≤ s.change_duration then
    (some (get_safe_light_level s), { s with change_done := s.change_done + 1 })
  else
    (none, s)

/-- The light state `e` elapsed ticks into the current ramp (`change_done`
is incremented once per adjust_light tick). -/
def ramp_at (s : LightState) (e : Int) : LightState :=
  { s with change_done := e }

/-! ### Drive curve (hexbright::set_light_level, lines 217-243) -/

inductive DriveMode where
  | low
  | high
deriving DecidableEq, Repr

/-- Low-segment cubic (line 237), exact rationals for the C float literals. -/
def low_drive_curve (x : ℚ) : ℚ :=
  633/1000000000 * (x * x * x) + 632/1000000 * (x * x) + 285/10000 * x + 398/100

/-- High-segment cubic (line 241). -/
def high_drive_curve (x : ℚ) : ℚ :=
  52/100000000 * (x * x * x) + 365/1000000 * (x * x) + 108/1000 * x + 448/10

/-- hexbright::set_light_level (lines 217-243): returns the selected drive
mode (DPIN_DRV_MODE low/high) and the drive value written to DPIN_DRV_EN.
`level` is the C `unsigned long` argument. -/
def set_light_level (level : Nat) : DriveMode × ℚ :=
  if level = 0 then (DriveMode.low, 0)
  else if level ≤ 500 then (DriveMode.low, low_drive_curve (level : ℚ))
  else (DriveMode.high, high_drive_curve ((level : ℚ) - 500))

/-! ### Indicator LED channel (hexbright.cpp lines 301-377) -/

structure LedChannel where
  led_on_time : Int
  led_wait_time : Int
  led_brightness : Int
deriving DecidableEq, Repr

/-- hexbright::set_led (lines 308-315), for one channel. -/
def set_led (on_time wait_time brightness ms : Int) : LedChannel :=
  { led_on_time := on_time / ms,
    led_wait_time := wait_time / ms,
    led_brightness := brightness }

/-- hexbright::get_led_state (lines 318-327). -/
def get_led_state (c : LedChannel) : Nat :=
  if c.led_on_time ≥ 0 then LED_ON
  else if c.led_wait_time > 0 then LED_WAIT
  else LED_OFF

/-- A hardware write performed by adjust_leds: `_led_on(brightness)` or
`_led_off`. -/
inductive HwWrite where
  | ledOn (brightness : Int)
  | ledOff
deriving DecidableEq, Repr

/-- One tick of hexbright::adjust_leds (lines 347-377) for one channel:
on-countdown positive drives ON; zero drives OFF once and decrements to -1;
otherwise the wait countdown decrements with no hardware write. -/
def adjust_led (c : LedChannel) : Option HwWrite × LedChannel :=
  if c.led_on_time > 0 then
    (some (HwWrite.ledOn c.led_brightness), { c with led_on_time := c.led_on_time - 1 })
  else if c.led_on_time = 0 then
    (some HwWrite.ledOff, { c with led_on_time := c.led_on_time - 1 })
  else if c.led_wait_time ≥ 0 then
    (none, { c with led_wait_time := c.led_wait_time - 1 })
  else
    (none, c)

/-- Run `n` ticks of `adjust_led`, recording at each tick the state reported
by `get_led_state` just before the tick and the hardware write the tick
performs. -/
def run_led : Nat → LedChannel → List (Nat × Option HwWrite)
  | 0, _ => []
  | n + 1, c =>
    let r := adjust_led c
    (get_led_state c, r.1) :: run_led n r.2

/-! ### Button (hexbright.cpp lines 385-414) -/

structure ButtonState where
  time_held : Int
  released : Bool
deriving DecidableEq, Repr

/-- Initial values of the globals `time_held = 0`, `released = true`
(lines 385-386). -/
def button_init : ButtonState := { time_held := 0, released := true }

/-- hexbright::button_released (lines 388-390): C `time_held && released`. -/
def button_released (s : ButtonState) : Bool :=
  (s.time_held != 0) && s.released

/-- hexbright::button_held (lines 392-394). -/
def button_held (s : ButtonState) (ms : Int) : Int :=
  s.time_held * ms

/-- hexbright::read_button (lines 396-414), with the sampled digital input
as argument. -/
def read_button (button_on : Bool) (s : ButtonState) : ButtonState :=
  if button_on then
    { time_held := s.time_held + 1, released := false }
  else if s.released && (s.time_held != 0) then
    { s with time_held := 0 }
  else
    { s with released := true }

/-- Feed `n` pressed samples. -/
def press_ticks : Nat → ButtonState → ButtonState
  | 0, s => s
  | n + 1, s => press_ticks n (read_button true s)

/-- Feed `n` unpressed samples. -/
def unpress_ticks : Nat → ButtonState → ButtonState
  | 0, s => s
  | n + 1, s => unpress_ticks n (read_button false s)

/-! ### Charge state (hexbright.cpp lines 818-849) -/

/-- hexbright::get_charge_state (lines 818-830), with the analog reading as
argument: `<128` CHARGING, `>768` CHARGED, else BATTERY. -/
def get_charge_state (charge_value : Int) : Nat :=
  if charge_value < 128 then CHARGING
  else if charge_value > 768 then CHARGED
  else BATTERY

/-- hexbright::get_definite_charge_state (lines 838-849): two reads combined
by bitwise AND. -/
def get_definite_charge_state (charge_value1 charge_value2 : Int) : Nat :=
  Nat.land (get_charge_state charge_value1) (get_charge_state charge_value2)

/-! ### Number printing (hexbright.cpp lines 700-775) -/

/-- hexbright::flip_color (lines 752-754). -/
def flip_color (color : Nat) : Nat := (color + 1) % 2

/-- The globals `_number`, `_color`, `print_wait_time` (lines 700-702). -/
structure PrintState where
  number : Int
  color : Nat
  wait : Int
deriving DecidableEq, Repr

/-- hexbright::printing_number (lines 705-707): C `_number || print_wait_time`. -/
def printing_number (s : PrintState) : Bool :=
  (s.number != 0) || (s.wait != 0)

/-- One call of hexbright::update_number (lines 709-750).  Returns the new
state and the `set_led(color, on_time)` call it issues, if any.  The
`_number == 1` branch returns early, skipping the trailing wait decrement. -/
def update_number (ms : Int) (s : PrintState) : PrintState × Option (Nat × Int) :=
  if s.number > 0 && (s.wait == 0) then
    if s.number = 1 then
      ({ number := 0, color := s.color, wait := 2500 / ms }, none)
    else
      let wait1 : Int := 300 / ms
      let emit : Nat × Int :=
        if s.number / 10 * 10 = s.number then (s.color, 400) else (s.color, 120)
      let number1 : Int :=
        if s.number / 10 * 10 = s.number then s.number else s.number - 1
      let st2 : PrintState :=
        if number1 ≠ 0 ∧ number1 % 10 = 0 then
          { number := number1 / 10, color := flip_color s.color, wait := 600 / ms }
        else
          { number := number1, color := s.color, wait := wait1 }
      ({ st2 with wait := if st2.wait ≠ 0 then st2.wait - 1 else st2.wait }, some emit)
  else
    ({ s with wait := if s.wait ≠ 0 then s.wait - 1 else s.wait }, none)

/-- The digit-reversal loop of hexbright::print_number (lines 766-770):
`_number = _number*10 + (number%10); number = number/10; _color = flip`.
The loop runs at most once per unit of `n`, so `fuel = n` suffices. -/
def print_number_loop : Nat → Nat → Int × Nat → Int × Nat
  | 0, _, st => st
  | fuel + 1, n, (acc, color) =>
    if n = 0 then (acc, color)
    else print_number_loop fuel (n / 10) (acc * 10 + (n % 10 : Int), flip_color color)

/-- hexbright::print_number (lines 757-775).  Returns the updated printing
state and the `set_led` call issued for a negative sign, if any.  The wait
field of the previous state is kept unless the number is negative. -/
def print_number (s : PrintState) (ms : Int) (n : Int) : PrintState × Option (Nat × Int) :=
  let m := n.natAbs
  let r := print_number_loop m m (1, GLED)
  if n < 0 then
    ({ number := r.1, color := r.2, wait := 600 / ms }, some (flip_color r.2, 500))
  else
    ({ number := r.1, color := r.2, wait := s.wait }, none)

/-- Run `n` ticks of `update_number`, collecting the `set_led` calls in
order. -/
def run_update_number (ms : Int) : Nat → PrintState → PrintState × List (Nat × Int)
  | 0, s => (s, [])
  | n + 1, s =>
    let r := update_number ms s
    let rest := run_update_number ms n r.1
    (rest.1, r.2.toList ++ rest.2)

/-! ### Accelerometer: jab detection (hexbright.cpp lines 436-509),
modelled over `ℚ` (exact comparisons of the double arithmetic). -/

structure AccelV where
  x : ℚ
  y : ℚ
  z : ℚ
deriving DecidableEq, Repr

/-- hexbright::dot_product (lines 548-554). -/
def dot_product (v w : AccelV) : ℚ := v.x * w.x + v.y * w.y + v.z * w.z

/-- hexbright::normalize (lines 466-470). -/
def normalize (v : AccelV) (magnitude : ℚ) : AccelV :=
  { x := v.x / magnitude, y := v.y / magnitude, z := v.z / magnitude }

/-- The global `light_axis = {0,-1,0}` (line 447). -/
def light_axis : AccelV := { x := 0, y := -1, z := 0 }

/-- The accelerometer globals feeding jab_detect: the two sample slots and
their magnitudes. -/
structure AccelState where
  new_vec : AccelV
  old_vec : AccelV
  new_magnitude : ℚ
  old_magnitude : ℚ
deriving DecidableEq, Repr

/-- hexbright::jab_detect (lines 473-509).  The `sensitivity` parameter is
never read.  Code after the first `return 0` (lines 500-508) is
unreachable and not modelled. -/
def jab_detect (st : AccelState) (sensitivity : ℚ) : ℚ :=
  let new_normalized := normalize st.new_vec st.new_magnitude
  let old_normalized := normalize st.old_vec st.old_magnitude
  if |st.old_magnitude - st.new_magnitude| > 2/5 then
    if |dot_product new_normalized light_axis| > 4/5 ∧
       |dot_product old_normalized light_axis| > 4/5 then
      st.new_vec.y - 20
    else 0
  else 0

/-! ### Accelerometer: rotation arithmetic (hexbright.cpp lines 511-514 and
571-623), modelled over `ℝ`.  `none` models the IEEE NaN/Inf a C double
division by zero or an out-of-domain `acos`/`asin` produces. -/

structure RV3 where
  x : ℝ
  y : ℝ
  z : ℝ

/-- Dot product over `ℝ` (hexbright::dot_product). -/
def rdot (v w : RV3) : ℝ := v.x * w.x + v.y * w.y + v.z * w.z

/-- hexbright::get_magnitude (lines 556-562). -/
noncomputable def rmagnitude (v : RV3) : ℝ := Real.sqrt (rdot v v)

open Classical in
/-- C double division with NaN/Inf-on-zero-divisor modelled as `none`. -/
noncomputable def fdiv (a b : ℝ) : Option ℝ :=
  if b = 0 then none else some (a / b)

open Classical in
/-- C `acos` with its domain error (NaN outside [-1,1]) modelled as `none`. -/
noncomputable def facos (x : ℝ) : Option ℝ :=
  if x < -1 ∨ 1 < x then none else some (Real.arccos x)

open Classical in
/-- C `asin` with its domain error (NaN outside [-1,1]) modelled as `none`. -/
noncomputable def fasin (x : ℝ) : Option ℝ :=
  if x < -1 ∨ 1 < x then none else some (Real.arcsin x)

/-- hexbright::angle_difference (lines 511-514):
`acos(dot_product/(magnitude1*magnitude2))`. -/
noncomputable def angle_difference (dp magnitude1 magnitude2 : ℝ) : Option ℝ :=
  (fdiv dp (magnitude1 * magnitude2)).bind facos

/-- The cross-product-like difference of line 608,
`new[(i+1)%3]*old[(i+2)%3] - new[(i+2)%3]*old[(i+1)%3]`, for i = 0, 1, 2. -/
def cross_term (nv ov : RV3) : Fin 3 → ℝ
  | 0 => nv.y * ov.z - nv.z * ov.y
  | 1 => nv.z * ov.x - nv.x * ov.z
  | 2 => nv.x * ov.y - nv.y * ov.x

/-- One per-axis rotation value of lines 607-612: the cross term divided by
`new_magnitude*old_magnitude` and then by `asin(angle_change)` — there is no
guard on either divisor. -/
noncomputable def axis_rotation_value (cross nm om : ℝ) (angle : Option ℝ) : Option ℝ :=
  (fdiv cross (nm * om)).bind fun r => (angle.bind fasin).bind fun s => fdiv r s

/-- The `axes_rotation` values computed by hexbright::read_accelerometer_vector
(lines 595-612) from the two sample slots: magnitudes from get_magnitude,
`dp = dot_product(old_vector, new_vector)`,
`angle_change = angle_difference(dp, new_magnitude, old_magnitude)` (radians
at this point), then the three per-axis divisions. -/
noncomputable def axes_rotation (nv ov : RV3) : Option ℝ × Option ℝ × Option ℝ :=
  let nm := rmagnitude nv
  let om := rmagnitude ov
  let angle := angle_difference (rdot ov nv) nm om
  (axis_rotation_value (cross_term nv ov 0) nm om angle,
   axis_rotation_value (cross_term nv ov 1) nm om angle,
   axis_rotation_value (cross_term nv ov 2) nm om angle)

open Classical in
/-- The per-axis rotation as the claim states it (second definition, written
from the spec's words for comparison with `axes_rotation`): the cross term
normalized by `new_magnitude*old_magnitude*sin(angle_change)`, with the
division guarded when `sin(angle_change)` is zero, yielding a zero rotation. -/
noncomputable def axes_rotation_claimed (nv ov : RV3) : ℝ × ℝ × ℝ :=
  let nm := rmagnitude nv
  let om := rmagnitude ov
  let angle := Real.arccos (rdot ov nv / (nm * om))
  let d := nm * om * Real.sin angle
  (if Real.sin angle = 0 then 0 else cross_term nv ov 0 / d,
   if Real.sin angle = 0 then 0 else cross_term nv ov 1 / d,
   if Real.sin angle = 0 then 0 else cross_term nv ov 2 / d)

/-! ## Theorems -/

/-- One step of overheat_protection always leaves the ceiling in [0, 1000],
whatever the incoming state and temperature. -/
theorem overheat_protection_safe_bounds (s : LightState) (t : Int) :
    0 ≤ (overheat_protection s t).safe_light_level ∧
    (overheat_protection s t).safe_light_level ≤ 1000 := by
  simp only [overheat_protection, OVERHEAT_TEMPERATURE, MAX_LEVEL]
  split_ifs <;> simp_all

/-- C1: for a ceiling in [0,1000] and any temperature reading, one call of
overheat_protection sets the ceiling to
clamp(ceiling + (OVERHEAT_TEMPERATURE - temperature), 0, 1000); and along any
sequence of temperature readings the ceiling stays in [0,1000] after every
tick. -/
theorem overheat_ceiling_clamped (s : LightState) (t : Int)
    (h0 : 0 ≤ s.safe_light_level) (h1 : s.safe_light_level ≤ 1000) :
    (overheat_protection s t).safe_light_level =
      max 0 (min 1000 (s.safe_light_level + (OVERHEAT_TEMPERATURE - t))) ∧
    ∀ ts : List Int,
      0 ≤ (ts.foldl overheat_protection s).safe_light_level ∧
      (ts.foldl overheat_protection s).safe_light_level ≤ 1000 := by
  constructor
  · simp only [overheat_protection, OVERHEAT_TEMPERATURE, MAX_LEVEL]
    split_ifs <;> simp_all <;> omega
  · intro ts
    induction ts generalizing s with
    | nil => exact ⟨h0, h1⟩
    | cons t' ts ih =>
      simp only [List.foldl_cons]
      exact ih (overheat_protection s t')
        (overheat_protection_safe_bounds s t').1
        (overheat_protection_safe_bounds s t').2

/-- Witness for C1 at ceiling 1000 and temperature reading 500. -/
theorem overheat_ceiling_clamped_witness :
    (overheat_protection
        { start_light_level := 0, end_light_level := 0, change_duration := 0,
          change_done := 0, safe_light_level := 1000 } 500).safe_light_level =
      max 0 (min 1000 (1000 + (OVERHEAT_TEMPERATURE - 500))) :=
  (overheat_ceiling_clamped
    { start_light_level := 0, end_light_level := 0, change_duration := 0,
      change_done := 0, safe_light_level := 1000 } 500
    (by norm_num) (by norm_num)).1

/-- C5: the bitwise-AND combination of two charge classifications
(CHARGING = 1, CHARGED = 3, BATTERY = 7) resolves every disagreeing pair
away from BATTERY, and BATTERY is returned only when both reads classify as
BATTERY. -/
theorem definite_charge_state_combination (a b : Int) :
    (get_charge_state a = CHARGING → get_charge_state b = BATTERY →
      get_definite_charge_state a b = CHARGING) ∧
    (get_charge_state a = BATTERY → get_charge_state b = CHARGING →
      get_definite_charge_state a b = CHARGING) ∧
    (get_charge_state a = CHARGED → get_charge_state b = BATTERY →
      get_definite_charge_state a b = CHARGED) ∧
    (get_charge_state a = BATTERY → get_charge_state b = CHARGED →
      get_definite_charge_state a b = CHARGED) ∧
    (get_charge_state a = CHARGING → get_charge_state b = CHARGED →
      get_definite_charge_state a b = CHARGING) ∧
    (get_charge_state a = CHARGED → get_charge_state b = CHARGING →
      get_definite_charge_state a b = CHARGING) ∧
    (get_definite_charge_state a b = BATTERY →
      get_charge_state a = BATTERY ∧ get_charge_state b = BATTERY) := by
  have ha : get_charge_state a = CHARGING ∨ get_charge_state a = CHARGED ∨
      get_charge_state a = BATTERY := by
    unfold get_charge_state
    split_ifs <;> simp [CHARGING, CHARGED, BATTERY]
  have hb : get_charge_state b = CHARGING ∨ get_charge_state b = CHARGED ∨
      get_charge_state b = BATTERY := by
    unfold get_charge_state
    split_ifs <;> simp [CHARGING, CHARGED, BATTERY]
  unfold get_definite_charge_state
  rcases ha with h | h | h <;> rcases hb with h' | h' | h' <;> rw [h, h'] <;> decide

/-- Witness for C5: a charging read (0) and a battery read (500) combine to
CHARGING. -/
theorem definite_charge_state_combination_witness :
    get_definite_charge_state 0 500 = CHARGING :=
  (definite_charge_state_combination 0 500).1 (by decide) (by decide)

/-- C10: jab_detect is independent of its sensitivity argument; its value is
determined by the stored sample pair alone — `new_vector[1] - 20` when the
magnitude delta exceeds 0.4 and both normalized vectors are aligned with the
light axis beyond 0.8 in absolute dot product, else 0. -/
theorem jab_detect_sensitivity_independent (st : AccelState) (s1 s2 : ℚ) :
    jab_detect st s1 = jab_detect st s2 ∧
    jab_detect st s1 =
      (if |st.old_magnitude - st.new_magnitude| > 2/5 ∧
          |dot_product (normalize st.new_vec st.new_magnitude) light_axis| > 4/5 ∧
          |dot_product (normalize st.old_vec st.old_magnitude) light_axis| > 4/5
       then st.new_vec.y - 20 else 0) := by
  refine ⟨rfl, ?_⟩
  unfold jab_detect
  dsimp only
  split_ifs <;> first | rfl | tauto

/-- C7: the LED channel armed with on = 3 ticks and wait = 2 ticks drives ON
on each tick with a positive on-counter, issues the OFF write exactly once
(on the tick the counter is 0, decrementing it to -1), performs no hardware
write in the WAIT/OFF phases, and get_led_state reports ON, then WAIT while
wait ticks remain, then OFF steadily. -/
theorem led_channel_trace :
    run_led 8 (set_led 30 20 255 10) =
      [(LED_ON, some (HwWrite.ledOn 255)), (LED_ON, some (HwWrite.ledOn 255)),
       (LED_ON, some (HwWrite.ledOn 255)), (LED_ON, some HwWrite.ledOff),
       (LED_WAIT, none), (LED_WAIT, none), (LED_OFF, none), (LED_OFF, none)] ∧
    ((run_led 8 (set_led 30 20 255 10)).map Prod.snd).count (some HwWrite.ledOff) = 1 ∧
    ∀ c : LedChannel, c.led_on_time < 0 → (adjust_led c).1 = none := by
  refine ⟨by decide, by decide, ?_⟩
  intro c hc
  unfold adjust_led
  split_ifs <;> first | rfl | (exfalso; omega)

/-- Witness for C7's universally quantified part: a channel in the WAIT
phase performs no hardware write. -/
theorem led_channel_trace_witness :
    (adjust_led { led_on_time := -1, led_wait_time := 2, led_brightness := 255 }).1 = none :=
  led_channel_trace.2.2
    { led_on_time := -1, led_wait_time := 2, led_brightness := 255 } (by norm_num)

/-- C4 counterexample: the drive value of the low-segment cubic at level 500
and that of the high-segment cubic at level 501 differ by more than 200 (on
a 0-255 drive scale), so the two segments are not continuous in drive value
within any small epsilon at the boundary. -/
theorem drive_curve_boundary_gap :
    200 < (set_light_level 500).2 - (set_light_level 501).2 := by
  norm_num [set_light_level, low_drive_curve, high_drive_curve]

/-- C4 amended: the level-to-drive mapping is a pure function of the level
(equal levels give equal mode and drive), but at the segment boundary the
drive value jumps: level 500 gives 255.355 in low mode while level 501 gives
44.90836552 in high mode — a gap of more than 210.4, reflecting the switch
to a different hardware drive range rather than epsilon-continuity of the
raw drive value. -/
theorem drive_curve_deterministic_and_boundary (l1 l2 : Nat) (h : l1 = l2) :
    set_light_level l1 = set_light_level l2 ∧
    set_light_level 500 = (DriveMode.low, 51071/200) ∧
    set_light_level 501 = (DriveMode.high, 561354569/12500000) ∧
    210 < (set_light_level 500).2 - (set_light_level 501).2 := by
  refine ⟨by rw [h], ?_, ?_, ?_⟩
  · norm_num [set_light_level, low_drive_curve]
  · norm_num [set_light_level, high_drive_curve]
  · norm_num [set_light_level, low_drive_curve, high_drive_curve]

/-- Witness for C4's purity hypothesis at level 420. -/
theorem drive_curve_deterministic_and_boundary_witness :
    set_light_level 420 = set_light_level 420 :=
  (drive_curve_deterministic_and_boundary 420 420 rfl).1

/-- One or more pressed samples accumulate `time_held` and clear the
released flag. -/
theorem press_ticks_spec (k : Nat) (s : ButtonState) :
    press_ticks (k + 1) s =
      { time_held := s.time_held + (k + 1), released := false } := by
  induction k generalizing s with
  | zero => simp [press_ticks, read_button]
  | succ k ih =>
    show press_ticks (k + 1) (read_button true s) = _
    rw [ih]
    simp only [read_button, if_true, ButtonState.mk.injEq]
    push_cast
    refine ⟨by ring, by simp⟩

/-- The idle button state is a fixed point of unpressed sampling. -/
theorem unpress_ticks_idle (j : Nat) :
    unpress_ticks j { time_held := 0, released := true } =
      { time_held := 0, released := true } := by
  induction j with
  | zero => rfl
  | succ j ih =>
    show unpress_ticks j (read_button false { time_held := 0, released := true }) = _
    rw [show read_button false { time_held := 0, released := true } =
          { time_held := 0, released := true } from by decide]
    exact ih

/-- C6 counterexample: press for one tick, then two unpressed ticks with no
new press in between — button_released() already returns false again on the
second unpressed tick (time_held was reset to 0), contradicting that it
remains true until the next press. -/
theorem button_released_not_sticky :
    button_released
      (read_button false (read_button false (read_button true button_init))) = false := by
  decide

/-- C6 amended: pressing for N ticks then releasing gives button_released()
= false on every pressed tick; on the first unpressed tick button_released()
is true and button_held() reports N*ms_delay — exactly that one window; from
the second unpressed tick onward time_held is reset to 0, so
button_released() returns false (the internal released flag stays true)
until the next press. -/
theorem button_press_release_window (N : Nat) (ms : Int) (h : 0 < N) :
    (∀ k, 1 ≤ k → k ≤ N → button_released (press_ticks k button_init) = false) ∧
    (button_released (read_button false (press_ticks N button_init)) = true ∧
     button_held (read_button false (press_ticks N button_init)) ms = N * ms) ∧
    (∀ j, 1 ≤ j →
      unpress_ticks j (read_button false (press_ticks N button_init)) =
        { time_held := 0, released := true } ∧
      button_released
        (unpress_ticks j (read_button false (press_ticks N button_init))) = false) := by
  have hN : (N : Int) ≠ 0 := by exact_mod_cast h.ne'
  obtain ⟨N', rfl⟩ : ∃ N', N = N' + 1 := ⟨N - 1, by omega⟩
  have hpress : press_ticks (N' + 1) button_init =
      { time_held := ((N' : Int) + 1), released := false } := by
    rw [press_ticks_spec]
    simp [button_init]
  have hrel : read_button false (press_ticks (N' + 1) button_init) =
      { time_held := ((N' : Int) + 1), released := true } := by
    rw [hpress]
    simp [read_button]
  refine ⟨?_, ⟨?_, ?_⟩, ?_⟩
  · intro k hk1 hkN
    obtain ⟨k', rfl⟩ : ∃ k', k = k' + 1 := ⟨k - 1, by omega⟩
    rw [press_ticks_spec]
    simp [button_released]
  · rw [hrel]
    simp [button_released]
    omega
  · rw [hrel]
    simp [button_held]
  · intro j hj
    obtain ⟨j', rfl⟩ : ∃ j', j = j' + 1 := ⟨j - 1, by omega⟩
    have hzero : read_button false (read_button false (press_ticks (N' + 1) button_init)) =
        { time_held := 0, released := true } := by
      rw [hrel]
      simp [read_button]
    have hj1 : unpress_ticks (j' + 1) (read_button false (press_ticks (N' + 1) button_init)) =
        { time_held := 0, released := true } := by
      show unpress_ticks j' (read_button false (read_button false (press_ticks (N' + 1) button_init))) =
          { time_held := 0, released := true }
      rw [hzero, unpress_ticks_idle]
    exact ⟨hj1, by rw [hj1]; decide⟩

/-- Witness for C6's amended claim at N = 3 presses, ms_delay = 10. -/
theorem button_press_release_window_witness :
    button_released (read_button false (press_ticks 3 button_init)) = true ∧
    button_held (read_button false (press_ticks 3 button_init)) 10 = 3 * 10 :=
  (button_press_release_window 3 10 (by norm_num)).2.1

/-- C8: print_number(100) seeds the remaining value at 1 and builds it to
1001 with the color flipped to red; at ms_delay = 25 the decoder then emits
one short (120 ms) blink for the digit 1 and one long (400 ms) zero blink
for each trailing zero, flipping color at each digit boundary — three blinks
in total, not just one — then schedules the 2500 ms terminal pause and
finally goes idle. -/
theorem print_number_100_trace :
    (print_number { number := 0, color := GLED, wait := 0 } 25 100).1 =
      { number := 1001, color := RLED, wait := 0 } ∧
    (run_update_number 25 73 { number := 1001, color := RLED, wait := 0 }).2 =
      [(RLED, 120), (GLED, 400), (RLED, 400)] ∧
    (run_update_number 25 73 { number := 1001, color := RLED, wait := 0 }).1 =
      { number := 0, color := GLED, wait := 100 } ∧
    printing_number
      (run_update_number 25 73 { number := 1001, color := RLED, wait := 0 }).1 = true ∧
    (run_update_number 25 174 { number := 1001, color := RLED, wait := 0 }).1 =
      { number := 0, color := GLED, wait := 0 } ∧
    printing_number
      (run_update_number 25 174 { number := 1001, color := RLED, wait := 0 }).1 = false := by
  refine ⟨by decide, by decide, by decide, by decide, by decide, by decide⟩

/-- The ceiling-clamped level is the minimum of the requested level and the
ceiling. -/
theorem get_safe_light_level_eq_min (s : LightState) :
    get_safe_light_level s = min (get_light_level s) s.safe_light_level := by
  unfold get_safe_light_level
  split_ifs <;> omega

/-- C2: whenever overheat_protection leaves the ceiling strictly below 1000,
it snaps change_done to min(change_done, change_duration); change_done ≤
change_duration therefore holds afterwards, and the next adjust_light tick
performs a hardware write at the ceiling-clamped level
min(get_light_level, ceiling). -/
theorem overheat_snaps_ramp (s : LightState) (t : Int)
    (h : (overheat_protection s t).safe_light_level < 1000) :
    (overheat_protection s t).change_done = min s.change_done s.change_duration ∧
    (overheat_protection s t).change_done ≤ (overheat_protection s t).change_duration ∧
    (adjust_light (overheat_protection s t)).1 =
      some (min (get_light_level (overheat_protection s t))
                (overheat_protection s t).safe_light_level) := by
  have hsnap : (overheat_protection s t).change_done = min s.change_done s.change_duration ∧
      (overheat_protection s t).change_duration = s.change_duration := by
    simp only [overheat_protection, MAX_LEVEL, OVERHEAT_TEMPERATURE] at h ⊢
    split_ifs at h ⊢ <;> simp_all
  have hle : (overheat_protection s t).change_done ≤
      (overheat_protection s t).change_duration := by
    rw [hsnap.1, hsnap.2]
    exact min_le_right _ _
  refine ⟨hsnap.1, hle, ?_⟩
  unfold adjust_light
  rw [if_pos hle, get_safe_light_level_eq_min]

/-- Witness for C2: ceiling 1000, reading 400 drops the ceiling to 920 and
the ramp at 5/10 ticks keeps change_done = min 5 10. -/
theorem overheat_snaps_ramp_witness :
    (overheat_protection
        { start_light_level := 0, end_light_level := 1000, change_duration := 10,
          change_done := 5, safe_light_level := 1000 } 400).change_done = min 5 10 :=
  (overheat_snaps_ramp
    { start_light_level := 0, end_light_level := 1000, change_duration := 10,
      change_done := 5, safe_light_level := 1000 } 400 (by decide)).1

/-- C9 counterexample: for the perpendicular unit samples new = (1,0,0) and
old = (0,1,0) the angle change is pi/2, whose sine is 1 — far from zero, so
the claimed guarded formula yields the defined rotation (0, 0, 1); but the
code divides by asin(angle_change) with angle_change = pi/2 > 1 outside
asin's domain, so every axis ends up as a propagated undefined value. -/
theorem rotation_division_counterexample :
    axes_rotation { x := 1, y := 0, z := 0 } { x := 0, y := 1, z := 0 } =
      (none, none, none) ∧
    axes_rotation_claimed { x := 1, y := 0, z := 0 } { x := 0, y := 1, z := 0 } =
      (0, 0, 1) := by
  have hpi : (1 : ℝ) < Real.pi / 2 := by
    nlinarith [Real.pi_gt_three]
  have hmag : rmagnitude { x := 1, y := 0, z := 0 } = 1 := by
    simp [rmagnitude, rdot]
  have hmag' : rmagnitude { x := 0, y := 1, z := 0 } = 1 := by
    simp [rmagnitude, rdot]
  have hdp : rdot { x := 0, y := 1, z := 0 } { x := 1, y := 0, z := 0 } = 0 := by
    norm_num [rdot]
  have hangle : angle_difference 0 1 1 = some (Real.pi / 2) := by
    rw [angle_difference, fdiv, if_neg (by norm_num)]
    simp [facos, Real.arccos_zero]
  have hdiv : ∀ c : ℝ, fdiv c (1 * 1) = some (c / 1) := fun c => by
    rw [fdiv, if_neg (by norm_num)]
    norm_num
  have hasin : fasin (Real.pi / 2) = none := by
    rw [fasin, if_pos (Or.inr hpi)]
  constructor
  · simp [axes_rotation, hmag, hmag', hdp, hangle, axis_rotation_value, hdiv, hasin]
  · simp only [axes_rotation_claimed, hmag, hmag', hdp]
    norm_num [Real.arccos_zero, Real.sin_pi_div_two, cross_term]

/-- C9 amended: the per-axis rotation is the cross-product-like difference
divided by new_magnitude*old_magnitude and then by asin(angle_change) — not
sin — with no guard on either division: for any pair of identical unit
samples, angle_change is 0, asin(0) = 0, and the division by zero makes
every axis an undefined (NaN-modelled) rotation that is stored for the tick;
no arithmetic error is raised, the tick continues. -/
theorem rotation_division_unguarded (v : RV3) (h : rdot v v = 1) :
    axes_rotation v v = (none, none, none) := by
  have hmag : rmagnitude v = 1 := by
    rw [rmagnitude, h, Real.sqrt_one]
  have hangle : angle_difference (rdot v v) 1 1 = some 0 := by
    rw [h, angle_difference, fdiv, if_neg (by norm_num)]
    norm_num [facos, Real.arccos_one]
  have hdiv : ∀ c : ℝ, fdiv c (1 * 1) = some (c / 1) := fun c => by
    rw [fdiv, if_neg (by norm_num)]
    norm_num
  have hasin : fasin 0 = some 0 := by
    rw [fasin, if_neg (by norm_num)]
    simp [Real.arcsin_zero]
  have hzero : ∀ r : ℝ, fdiv r 0 = none := fun r => by
    rw [fdiv, if_pos rfl]
  simp [axes_rotation, hmag, hangle, axis_rotation_value, hdiv, hasin, hzero]

/-- Witness for C9's amended claim at the unit sample (0,-1,0), the light
axis direction. -/
theorem rotation_division_unguarded_witness :
    axes_rotation { x := 0, y := -1, z := 0 } { x := 0, y := -1, z := 0 } =
      (none, none, none) :=
  rotation_division_unguarded { x := 0, y := -1, z := 0 } (by norm_num [rdot])

/-- Truncation toward zero of an integer is the integer itself. -/
theorem qtrunc_intCast (a : Int) : qtrunc (a : ℚ) = a := by
  unfold qtrunc
  split_ifs with h
  · exact Int.floor_intCast a
  · exact Int.ceil_intCast a

/-- On non-negative values, truncation toward zero is the floor. -/
theorem qtrunc_eq_floor (q : ℚ) (h : 0 ≤ q) : qtrunc q = ⌊q⌋ := if_pos h

/-- Truncation toward zero is monotone on non-negative values. -/
theorem qtrunc_mono (p q : ℚ) (h0 : 0 ≤ p) (hpq : p ≤ q) :
    qtrunc p ≤ qtrunc q := by
  rw [qtrunc_eq_floor p h0, qtrunc_eq_floor q (le_trans h0 hpq)]
  exact Int.floor_le_floor hpq

/-- C3: after set_light(L1, L2, D*ms_delay) with levels in [0,1000] and
D > 0 ticks: the ramp duration is D ticks and the elapsed count restarts at
0; the reported level at elapsed 0 is L1; at every 0 ≤ e < D it is the
(truncated) linear interpolation (L2-L1)*e/D + L1; it is monotone from L1
toward L2 and stays between min and max of the two; and at every e ≥ D it
equals L2, so further ticks after completion never change the reported
level. -/
theorem set_light_ramp_profile (s : LightState) (ms L1 L2 D : Int)
    (hms : 0 < ms) (hD : 0 < D) (h1l : 0 ≤ L1) (h1u : L1 ≤ 1000)
    (h2l : 0 ≤ L2) (h2u : L2 ≤ 1000) :
    (set_light s ms L1 L2 (D * ms)).change_duration = D ∧
    (set_light s ms L1 L2 (D * ms)).change_done = 0 ∧
    get_light_level (set_light s ms L1 L2 (D * ms)) = L1 ∧
    (∀ e : Int, 0 ≤ e → e < D →
      get_light_level (ramp_at (set_light s ms L1 L2 (D * ms)) e) =
        qtrunc (((L2 : ℚ) - (L1 : ℚ)) * (e : ℚ) / (D : ℚ) + (L1 : ℚ))) ∧
    (∀ e e' : Int, 0 ≤ e → e ≤ e' →
      (L1 ≤ L2 →
        get_light_level (ramp_at (set_light s ms L1 L2 (D * ms)) e) ≤
          get_light_level (ramp_at (set_light s ms L1 L2 (D * ms)) e')) ∧
      (L2 ≤ L1 →
        get_light_level (ramp_at (set_light s ms L1 L2 (D * ms)) e') ≤
          get_light_level (ramp_at (set_light s ms L1 L2 (D * ms)) e))) ∧
    (∀ e : Int, 0 ≤ e →
      min L1 L2 ≤ get_light_level (ramp_at (set_light s ms L1 L2 (D * ms)) e) ∧
      get_light_level (ramp_at (set_light s ms L1 L2 (D * ms)) e) ≤ max L1 L2) ∧
    (∀ e : Int, D ≤ e →
      get_light_level (ramp_at (set_light s ms L1 L2 (D * ms)) e) = L2) := by
  have hne : ¬ (L1 = CURRENT_LEVEL) := by
    simp only [CURRENT_LEVEL]
    omega
  have hKey : set_light s ms L1 L2 (D * ms) =
      { s with start_light_level := L1, end_light_level := L2,
               change_duration := D, change_done := 0 } := by
    unfold set_light
    rw [if_neg hne, Int.mul_ediv_cancel _ (by omega : ms ≠ 0)]
  have heval : ∀ e : Int,
      get_light_level (ramp_at (set_light s ms L1 L2 (D * ms)) e) =
        if e ≥ D then L2
        else qtrunc (((L2 : ℚ) - (L1 : ℚ)) * ((e : ℚ) / (D : ℚ)) + (L1 : ℚ)) := by
    intro e
    rw [hKey]
    rfl
  have hDQ : (0 : ℚ) < (D : ℚ) := by exact_mod_cast hD
  have ht0 : ∀ e : Int, 0 ≤ e → (0 : ℚ) ≤ (e : ℚ) / (D : ℚ) := by
    intro e he
    exact div_nonneg (by exact_mod_cast he) hDQ.le
  have ht1 : ∀ e : Int, e ≤ D → (e : ℚ) / (D : ℚ) ≤ 1 := by
    intro e he
    rw [div_le_one hDQ]
    exact_mod_cast he
  have hvlow : ∀ e : Int, 0 ≤ e → e ≤ D → L1 ≤ L2 →
      (L1 : ℚ) ≤ ((L2 : ℚ) - (L1 : ℚ)) * ((e : ℚ) / (D : ℚ)) + (L1 : ℚ) ∧
      ((L2 : ℚ) - (L1 : ℚ)) * ((e : ℚ) / (D : ℚ)) + (L1 : ℚ) ≤ (L2 : ℚ) := by
    intro e he0 heD hc
    have hcq : (L1 : ℚ) ≤ (L2 : ℚ) := by exact_mod_cast hc
    constructor
    · nlinarith [mul_nonneg (sub_nonneg.mpr hcq) (ht0 e he0)]
    · nlinarith [mul_nonneg (sub_nonneg.mpr hcq) (sub_nonneg.mpr (ht1 e heD))]
  have hvhigh : ∀ e : Int, 0 ≤ e → e ≤ D → L2 ≤ L1 →
      (L2 : ℚ) ≤ ((L2 : ℚ) - (L1 : ℚ)) * ((e : ℚ) / (D : ℚ)) + (L1 : ℚ) ∧
      ((L2 : ℚ) - (L1 : ℚ)) * ((e : ℚ) / (D : ℚ)) + (L1 : ℚ) ≤ (L1 : ℚ) := by
    intro e he0 heD hc
    have hcq : (L2 : ℚ) ≤ (L1 : ℚ) := by exact_mod_cast hc
    constructor
    · nlinarith [mul_nonneg (sub_nonneg.mpr hcq) (sub_nonneg.mpr (ht1 e heD))]
    · nlinarith [mul_nonneg (sub_nonneg.mpr hcq) (ht0 e he0)]
  have hvpos : ∀ e : Int, 0 ≤ e → e ≤ D →
      (0 : ℚ) ≤ ((L2 : ℚ) - (L1 : ℚ)) * ((e : ℚ) / (D : ℚ)) + (L1 : ℚ) := by
    intro e he0 heD
    rcases le_total L1 L2 with hc | hc
    · have h := (hvlow e he0 heD hc).1
      have h1q : (0 : ℚ) ≤ (L1 : ℚ) := by exact_mod_cast h1l
      linarith
    · have h := (hvhigh e he0 heD hc).1
      have h2q : (0 : ℚ) ≤ (L2 : ℚ) := by exact_mod_cast h2l
      linarith
  have hdivm : ∀ e e' : Int, e ≤ e' → (e : ℚ) / (D : ℚ) ≤ (e' : ℚ) / (D : ℚ) := by
    intro e e' hee
    rw [div_le_div_iff₀ hDQ hDQ]
    have hq : (e : ℚ) ≤ (e' : ℚ) := by exact_mod_cast hee
    nlinarith
  have hvmono : ∀ e e' : Int, e ≤ e' → L1 ≤ L2 →
      ((L2 : ℚ) - (L1 : ℚ)) * ((e : ℚ) / (D : ℚ)) + (L1 : ℚ) ≤
        ((L2 : ℚ) - (L1 : ℚ)) * ((e' : ℚ) / (D : ℚ)) + (L1 : ℚ) := by
    intro e e' hee hc
    have hcq : (0 : ℚ) ≤ (L2 : ℚ) - (L1 : ℚ) := by
      rw [sub_nonneg]
      exact_mod_cast hc
    exact add_le_add_right (mul_le_mul_of_nonneg_left (hdivm e e' hee) hcq) _
  have hvanti : ∀ e e' : Int, e ≤ e' → L2 ≤ L1 →
      ((L2 : ℚ) - (L1 : ℚ)) * ((e' : ℚ) / (D : ℚ)) + (L1 : ℚ) ≤
        ((L2 : ℚ) - (L1 : ℚ)) * ((e : ℚ) / (D : ℚ)) + (L1 : ℚ) := by
    intro e e' hee hc
    have hcq : (L2 : ℚ) - (L1 : ℚ) ≤ 0 := by
      rw [sub_nonpos]
      exact_mod_cast hc
    exact add_le_add_right (mul_le_mul_of_nonpos_left (hdivm e e' hee) hcq) _
  refine ⟨by rw [hKey], by rw [hKey], ?_, ?_, ?_, ?_, ?_⟩
  · have hzero : ramp_at (set_light s ms L1 L2 (D * ms)) 0 =
        set_light s ms L1 L2 (D * ms) := by
      rw [hKey]
      rfl
    rw [← hzero, heval 0, if_neg (by omega)]
    norm_num [qtrunc_intCast]
  · intro e he0 heD
    rw [heval e, if_neg (by omega)]
    congr 1
    ring
  · intro e e' he0 hee
    constructor
    · intro hc
      rcases lt_or_le e' D with heD' | heD'
      · rw [heval e, heval e', if_neg (by omega), if_neg (by omega)]
        exact qtrunc_mono _ _ (hvpos e he0 (by omega)) (hvmono e e' hee hc)
      · rw [heval e']
        rw [if_pos (by omega)]
        rcases lt_or_le e D with heD | heD
        · rw [heval e, if_neg (by omega)]
          have h := qtrunc_mono _ _ (hvpos e he0 heD.le) (hvlow e he0 heD.le hc).2
          rwa [qtrunc_intCast] at h
        · rw [heval e, if_pos (by omega)]
    · intro hc
      rcases lt_or_le e' D with heD' | heD'
      · rw [heval e, heval e', if_neg (by omega), if_neg (by omega)]
        exact qtrunc_mono _ _ (hvpos e' (by omega) (by omega)) (hvanti e e' hee hc)
      · rw [heval e']
        rw [if_pos (by omega)]
        rcases lt_or_le e D with heD | heD
        · rw [heval e, if_neg (by omega)]
          have h2q : (0 : ℚ) ≤ (L2 : ℚ) := by exact_mod_cast h2l
          have h := qtrunc_mono _ _ h2q (hvhigh e he0 heD.le hc).1
          rwa [qtrunc_intCast] at h
        · rw [heval e, if_pos (by omega)]
  · intro e he0
    rcases lt_or_le e D with heD | heD
    · rw [heval e, if_neg (by omega)]
      rcases le_total L1 L2 with hc | hc
      · rw [min_eq_left hc, max_eq_right hc]
        constructor
        · have h1q : (0 : ℚ) ≤ (L1 : ℚ) := by exact_mod_cast h1l
          have h := qtrunc_mono _ _ h1q (hvlow e he0 heD.le hc).1
          rwa [qtrunc_intCast] at h
        · have h := qtrunc_mono _ _ (hvpos e he0 heD.le) (hvlow e he0 heD.le hc).2
          rwa [qtrunc_intCast] at h
      · rw [min_eq_right hc, max_eq_left hc]
        constructor
        · have h2q : (0 : ℚ) ≤ (L2 : ℚ) := by exact_mod_cast h2l
          have h := qtrunc_mono _ _ h2q (hvhigh e he0 heD.le hc).1
          rwa [qtrunc_intCast] at h
        · have h := qtrunc_mono _ _ (hvpos e he0 heD.le) (hvhigh e he0 heD.le hc).2
          rwa [qtrunc_intCast] at h
    · rw [heval e, if_pos (by omega)]
      constructor
      · exact min_le_right L1 L2
      · exact le_max_right L1 L2
  · intro e heD
    rw [heval e, if_pos (by omega)]

/-- Witness for C3: a ramp from 0 to 1000 over 4 ticks at ms_delay = 10,
evaluated 2 ticks in. -/
theorem set_light_ramp_profile_witness :
    get_light_level
      (ramp_at (set_light
        { start_light_level := 0, end_light_level := 0, change_duration := 0,
          change_done := 0, safe_light_level := 1000 } 10 0 1000 (4 * 10)) 2) =
      qtrunc (((1000 : ℚ) - (0 : ℚ)) * (2 : ℚ) / (4 : ℚ) + (0 : ℚ)) :=
  ((set_light_ramp_profile
      { start_light_level := 0, end_light_level := 0, change_duration := 0,
        change_done := 0, safe_light_level := 1000 } 10 0 1000 4
      (by norm_num) (by norm_num) (by norm_num) (by norm_num) (by norm_num)
      (by norm_num)).2.2.2.1) 2 (by norm_num) (by norm_num)

end Hexbright
